import Mathlib

/-!
Verification of the active-workout session model of the workout-tracker
application: the client-side state cache (`ActiveWorkoutContext` provider,
`ExerciseSelector`, and related components) embedded from the TypeScript
source, and the server-side Session Engine modelled from the specification
(its Python implementation is not part of the shipped sources; only its
REST surface and the spec describe it).

Conventions of the embedding:
- TypeScript optional fields (`x?: T`) become `Option T`.
- JavaScript `undefined`/`null` tests (`if (!x)`) become `Option` matches.
- Asynchronous service calls are embedded by passing the call's outcome
  (`Except ServiceError α`) as an explicit argument to the pure state
  transformer, and recording the calls the operation issues as a list, so
  that "makes no service call" and "does not refetch" are statable.
- Timestamps are opaque strings client-side (as in the TS types) and
  naturals server-side.
-/

/-- Catalog exercise, from `types/exercise.ts` (`interface Exercise`).
`exercise_type` is one of the string constants `WEIGHT_BASED` /
`TIME_BASED`; it is kept as a string because the UI compares it against
arbitrary filter strings. -/
structure Exercise where
  id : Nat
  name : String
  description : Option String
  exercise_type : String
  muscle_group : Option String
  equipment : Option String
  instructions : Option String
  is_active : Bool
  created_at : String
  updated_at : String
  deriving Repr, DecidableEq

/-- One performed set, from `types/workout.ts` (`interface ExerciseSet`). -/
structure ExerciseSet where
  id : Nat
  workout_exercise_id : Nat
  set_number : Nat
  reps : Option Nat
  weight : Option Nat
  duration : Option Nat
  rest_duration : Option Nat
  notes : Option String
  completed : Bool
  created_at : String
  updated_at : String
  deriving Repr, DecidableEq

/-- An exercise inside a workout, from `types/workout.ts`
(`interface WorkoutExercise`). -/
structure WorkoutExercise where
  id : Nat
  workout_id : Nat
  exercise_id : Nat
  exercise : Exercise
  order_index : Nat
  notes : Option String
  sets : Option (List ExerciseSet)
  deriving Repr, DecidableEq

/-- The session aggregate, from `types/workout.ts` (`interface Workout`).
`completed_at = none` means the workout is active. -/
structure Workout where
  id : Nat
  user_id : Nat
  name : Option String
  started_at : String
  completed_at : Option String
  notes : Option String
  template_id : Option Nat
  workout_exercises : Option (List WorkoutExercise)
  deriving Repr, DecidableEq

/-- Payload for starting a workout, from `types/workout.ts`
(`interface WorkoutCreate`). -/
structure WorkoutCreate where
  name : Option String
  template_id : Option Nat
  notes : Option String
  deriving Repr, DecidableEq

/-- Payload for adding an exercise to a workout, from `types/workout.ts`
(`interface WorkoutExerciseCreate`). -/
structure WorkoutExerciseCreate where
  exercise_id : Nat
  order_index : Nat
  notes : Option String
  deriving Repr, DecidableEq

/-- Payload for creating a set, from `types/workout.ts`
(`interface ExerciseSetCreate`). -/
structure ExerciseSetCreate where
  set_number : Nat
  reps : Option Nat
  weight : Option Nat
  duration : Option Nat
  rest_duration : Option Nat
  notes : Option String
  completed : Option Bool
  deriving Repr, DecidableEq

/-- Partial update for a set, from `types/workout.ts`
(`interface ExerciseSetUpdate`); absent fields are left unchanged by the
server. -/
structure ExerciseSetUpdate where
  reps : Option Nat
  weight : Option Nat
  duration : Option Nat
  rest_duration : Option Nat
  notes : Option String
  completed : Option Bool
  deriving Repr, DecidableEq

/-- A template entry, from `types/workout.ts`
(`interface WorkoutTemplateExercise`). -/
structure WorkoutTemplateExercise where
  id : Nat
  template_id : Nat
  exercise_id : Nat
  order_index : Nat
  suggested_sets : Option Nat
  suggested_reps : Option Nat
  suggested_weight : Option Nat
  suggested_duration : Option Nat
  notes : Option String
  deriving Repr, DecidableEq

/-- A workout template, from `types/workout.ts`
(`interface WorkoutTemplate`). -/
structure WorkoutTemplate where
  id : Nat
  name : String
  description : Option String
  is_public : Bool
  created_by : Nat
  template_exercises : Option (List WorkoutTemplateExercise)
  deriving Repr, DecidableEq

/-- Shape of a failed service call as the provider inspects it in
`handleError`: `err.response?.data?.detail` is either a validation array
(modelled as the list of its extracted `msg` strings) or a string, and
`err.message` is the plain JS error message. -/
structure ServiceError where
  detail : Option (Sum (List String) String)
  message : Option String
  deriving Repr, DecidableEq

/-- The service calls `ActiveWorkoutContext` can issue through
`workoutService`, used to record which requests an operation makes. -/
inductive ServiceCall where
  | createWorkout (data : WorkoutCreate)
  | createWorkoutFromTemplate (templateId : Nat) (data : Option WorkoutCreate)
  | completeWorkoutCall (workoutId : Nat)
  | cancelWorkoutCall (workoutId : Nat)
  | updateWorkoutNotesCall (workoutId : Nat) (notes : String)
  | addExerciseToWorkoutCall (workoutId : Nat) (data : WorkoutExerciseCreate)
  | removeExerciseFromWorkoutCall (workoutId : Nat) (workoutExerciseId : Nat)
  | updateExerciseNotesCall (workoutId : Nat) (workoutExerciseId : Nat) (notes : String)
  | addSetToExercise (workoutId : Nat) (workoutExerciseId : Nat) (data : ExerciseSetCreate)
  | updateExerciseSet (workoutId : Nat) (workoutExerciseId : Nat) (setId : Nat)
      (data : ExerciseSetUpdate)
  | deleteExerciseSet (workoutId : Nat) (workoutExerciseId : Nat) (setId : Nat)
  | getWorkoutCall (workoutId : Nat)
  | getActiveWorkoutCall
  deriving Repr, DecidableEq

/-- The React state held by `ActiveWorkoutProvider`
(`ActiveWorkoutContext.tsx`): the five `useState` slots. -/
structure ClientState where
  activeWorkout : Option Workout
  loading : Bool
  error : Option String
  workoutTimer : Nat
  timerInterval : Option Nat
  deriving Repr, DecidableEq

/-- Result of running one provider action: the React state afterwards, the
service calls it issued, and the message of the error it threw (rethrown
or newly constructed), if any. -/
structure OpResult where
  state : ClientState
  calls : List ServiceCall
  thrown : Option String
  deriving Repr, DecidableEq

namespace Client

/-- Message extraction of `handleError` (ActiveWorkoutContext lines
120-137): a validation-detail array is joined with a comma and space, a
non-empty string detail is shown verbatim, otherwise a non-empty
`err.message`, otherwise the given default. Empty strings are falsy in
JavaScript, hence the emptiness tests. -/
def errorMessage (err : ServiceError) (defaultMessage : String) : String :=
  match err.detail with
  | some (Sum.inl msgs) => String.intercalate ", " msgs
  | some (Sum.inr s) =>
      if s ≠ "" then s
      else match err.message with
        | some m => if m ≠ "" then m else defaultMessage
        | none => defaultMessage
  | none =>
      match err.message with
      | some m => if m ≠ "" then m else defaultMessage
      | none => defaultMessage

/-- Inline message extraction of `addExerciseToWorkout`
(`err.response?.data?.detail || err.message || 'Failed to add exercise to
workout'`); an array detail is truthy and taken as-is (JS would display
its comma-joined coercion). -/
def addExerciseErrorMessage (err : ServiceError) : String :=
  match err.detail with
  | some (Sum.inl msgs) => String.intercalate "," msgs
  | some (Sum.inr s) =>
      if s ≠ "" then s
      else match err.message with
        | some m => if m ≠ "" then m else "Failed to add exercise to workout"
        | none => "Failed to add exercise to workout"
  | none =>
      match err.message with
      | some m => if m ≠ "" then m else "Failed to add exercise to workout"
      | none => "Failed to add exercise to workout"

/-- The `stopTimer` helper: clears the interval when one is set. -/
def stopTimer (st : ClientState) : ClientState :=
  match st.timerInterval with
  | some _ => { st with timerInterval := none }
  | none => st

/-- The `startWorkout` action: POSTs the new workout and installs the
server's workout as the cached active workout with a reset timer; on
failure records the error message and rethrows. `loading` ends false via
the `finally` block. -/
def startWorkout (st : ClientState) (workoutData : WorkoutCreate)
    (resp : Except ServiceError Workout) : OpResult :=
  match resp with
  | Except.ok workout =>
      ⟨{ st with activeWorkout := some workout, workoutTimer := 0,
                 error := none, loading := false },
       [ServiceCall.createWorkout workoutData], none⟩
  | Except.error err =>
      let msg := errorMessage err "Failed to start workout"
      ⟨{ st with error := some msg, loading := false },
       [ServiceCall.createWorkout workoutData], some msg⟩

/-- The `startWorkoutFromTemplate` action: like `startWorkout` but through
the template instantiation endpoint. -/
def startWorkoutFromTemplate (st : ClientState) (templateId : Nat)
    (workoutData : Option WorkoutCreate)
    (resp : Except ServiceError Workout) : OpResult :=
  match resp with
  | Except.ok workout =>
      ⟨{ st with activeWorkout := some workout, workoutTimer := 0,
                 error := none, loading := false },
       [ServiceCall.createWorkoutFromTemplate templateId workoutData], none⟩
  | Except.error err =>
      let msg := errorMessage err "Failed to start workout from template"
      ⟨{ st with error := some msg, loading := false },
       [ServiceCall.createWorkoutFromTemplate templateId workoutData], some msg⟩

/-- The `completeWorkout` action: no-op without an active workout;
otherwise PUTs the completion and clears the cached workout and timer. -/
def completeWorkout (st : ClientState)
    (resp : Except ServiceError Unit) : OpResult :=
  match st.activeWorkout with
  | none => ⟨st, [], none⟩
  | some w =>
      match resp with
      | Except.ok _ =>
          ⟨{ st with activeWorkout := none, workoutTimer := 0,
                     error := none, loading := false },
           [ServiceCall.completeWorkoutCall w.id], none⟩
      | Except.error err =>
          let msg := errorMessage err "Failed to complete workout"
          ⟨{ st with error := some msg, loading := false },
           [ServiceCall.completeWorkoutCall w.id], some msg⟩

/-- The `cancelWorkout` action: no-op without an active workout; otherwise
DELETEs the workout, clears the cache and timer and stops the tick. -/
def cancelWorkout (st : ClientState)
    (resp : Except ServiceError Unit) : OpResult :=
  match st.activeWorkout with
  | none => ⟨st, [], none⟩
  | some w =>
      match resp with
      | Except.ok _ =>
          ⟨stopTimer { st with activeWorkout := none, workoutTimer := 0,
                               error := none, loading := false },
           [ServiceCall.cancelWorkoutCall w.id], none⟩
      | Except.error err =>
          let msg := errorMessage err "Failed to cancel workout"
          ⟨{ st with error := some msg, loading := false },
           [ServiceCall.cancelWorkoutCall w.id], some msg⟩

/-- The `updateWorkoutNotes` action: replaces the whole cached workout
with the server's updated workout. -/
def updateWorkoutNotes (st : ClientState) (notes : String)
    (resp : Except ServiceError Workout) : OpResult :=
  match st.activeWorkout with
  | none => ⟨st, [], none⟩
  | some w =>
      match resp with
      | Except.ok updatedWorkout =>
          ⟨{ st with activeWorkout := some updatedWorkout },
           [ServiceCall.updateWorkoutNotesCall w.id notes], none⟩
      | Except.error err =>
          let msg := errorMessage err "Failed to update workout notes"
          ⟨{ st with error := some msg },
           [ServiceCall.updateWorkoutNotesCall w.id notes], some msg⟩

/-- The `addExerciseToWorkout` action: throws when no workout is active;
otherwise POSTs the exercise and appends the server's `WorkoutExercise`
to the cached list. -/
def addExerciseToWorkout (st : ClientState) (exerciseData : WorkoutExerciseCreate)
    (resp : Except ServiceError WorkoutExercise) : OpResult :=
  match st.activeWorkout with
  | none => ⟨st, [], some "No active workout found"⟩
  | some w =>
      match resp with
      | Except.ok workoutExercise =>
          let exs := (w.workout_exercises.getD []) ++ [workoutExercise]
          let merged := { w with workout_exercises := some exs }
          ⟨{ st with error := none, activeWorkout := some merged },
           [ServiceCall.addExerciseToWorkoutCall w.id exerciseData], none⟩
      | Except.error err =>
          let msg := addExerciseErrorMessage err
          ⟨{ st with error := some msg },
           [ServiceCall.addExerciseToWorkoutCall w.id exerciseData], some msg⟩

/-- The `removeExerciseFromWorkout` action: DELETEs the workout exercise
and drops it from the cached list by id. -/
def removeExerciseFromWorkout (st : ClientState) (workoutExerciseId : Nat)
    (resp : Except ServiceError Unit) : OpResult :=
  match st.activeWorkout with
  | none => ⟨st, [], none⟩
  | some w =>
      match resp with
      | Except.ok _ =>
          let exs := (w.workout_exercises.getD []).filter
            (fun we => we.id ≠ workoutExerciseId)
          let merged := { w with workout_exercises := some exs }
          ⟨{ st with error := none, activeWorkout := some merged },
           [ServiceCall.removeExerciseFromWorkoutCall w.id workoutExerciseId], none⟩
      | Except.error err =>
          let msg := errorMessage err "Failed to remove exercise from workout"
          ⟨{ st with error := some msg },
           [ServiceCall.removeExerciseFromWorkoutCall w.id workoutExerciseId], some msg⟩

/-- The `updateExerciseNotes` action: swaps in the server's updated
exercise at the matching id. -/
def updateExerciseNotes (st : ClientState) (workoutExerciseId : Nat) (notes : String)
    (resp : Except ServiceError WorkoutExercise) : OpResult :=
  match st.activeWorkout with
  | none => ⟨st, [], none⟩
  | some w =>
      match resp with
      | Except.ok updatedExercise =>
          let exs := (w.workout_exercises.getD []).map
            (fun we => if we.id = workoutExerciseId then updatedExercise else we)
          let merged := { w with workout_exercises := some exs }
          ⟨{ st with activeWorkout := some merged },
           [ServiceCall.updateExerciseNotesCall w.id workoutExerciseId notes], none⟩
      | Except.error err =>
          let msg := errorMessage err "Failed to update exercise notes"
          ⟨{ st with error := some msg },
           [ServiceCall.updateExerciseNotesCall w.id workoutExerciseId notes], some msg⟩

/-- The `addSet` action: POSTs the set and appends the server's set to the
matching exercise's list. -/
def addSet (st : ClientState) (workoutExerciseId : Nat) (setData : ExerciseSetCreate)
    (resp : Except ServiceError ExerciseSet) : OpResult :=
  match st.activeWorkout with
  | none => ⟨st, [], none⟩
  | some w =>
      match resp with
      | Except.ok newSet =>
          let exs := (w.workout_exercises.getD []).map
            (fun we => if we.id = workoutExerciseId
              then { we with sets := some ((we.sets.getD []) ++ [newSet]) }
              else we)
          let merged := { w with workout_exercises := some exs }
          ⟨{ st with error := none, activeWorkout := some merged },
           [ServiceCall.addSetToExercise w.id workoutExerciseId setData], none⟩
      | Except.error err =>
          let msg := errorMessage err "Failed to add set"
          ⟨{ st with error := some msg },
           [ServiceCall.addSetToExercise w.id workoutExerciseId setData], some msg⟩

/-- The `updateSet` action: PUTs the partial update and swaps the server's
returned set in at the matching exercise/set ids. -/
def updateSet (st : ClientState) (workoutExerciseId : Nat) (setId : Nat)
    (setData : ExerciseSetUpdate)
    (resp : Except ServiceError ExerciseSet) : OpResult :=
  match st.activeWorkout with
  | none => ⟨st, [], none⟩
  | some w =>
      match resp with
      | Except.ok updatedSet =>
          let updSets := fun (we : WorkoutExercise) =>
            (we.sets.getD []).map (fun s => if s.id = setId then updatedSet else s)
          let exs := (w.workout_exercises.getD []).map
            (fun we => if we.id = workoutExerciseId
              then { we with sets := some (updSets we) } else we)
          let merged := { w with workout_exercises := some exs }
          ⟨{ st with error := none, activeWorkout := some merged },
           [ServiceCall.updateExerciseSet w.id workoutExerciseId setId setData], none⟩
      | Except.error err =>
          let msg := errorMessage err "Failed to update set"
          ⟨{ st with error := some msg },
           [ServiceCall.updateExerciseSet w.id workoutExerciseId setId setData], some msg⟩

/-- The `deleteSet` action: DELETEs the set and filters it out of the
matching exercise's list. -/
def deleteSet (st : ClientState) (workoutExerciseId : Nat) (setId : Nat)
    (resp : Except ServiceError Unit) : OpResult :=
  match st.activeWorkout with
  | none => ⟨st, [], none⟩
  | some w =>
      match resp with
      | Except.ok _ =>
          let remSets := fun (we : WorkoutExercise) =>
            (we.sets.getD []).filter (fun s => s.id ≠ setId)
          let exs := (w.workout_exercises.getD []).map
            (fun we => if we.id = workoutExerciseId
              then { we with sets := some (remSets we) } else we)
          let merged := { w with workout_exercises := some exs }
          ⟨{ st with error := none, activeWorkout := some merged },
           [ServiceCall.deleteExerciseSet w.id workoutExerciseId setId], none⟩
      | Except.error err =>
          let msg := errorMessage err "Failed to delete set"
          ⟨{ st with error := some msg },
           [ServiceCall.deleteExerciseSet w.id workoutExerciseId setId], some msg⟩

/-- The `completeSet` action, exactly as written in the source: it awaits
`updateSet` with the single-field payload `\x7b completed: true \x7d`. -/
def completeSet (st : ClientState) (workoutExerciseId : Nat) (setId : Nat)
    (resp : Except ServiceError ExerciseSet) : OpResult :=
  updateSet st workoutExerciseId setId
    { reps := none, weight := none, duration := none, rest_duration := none,
      notes := none, completed := some true } resp

end Client

namespace Selector

/-- JavaScript `String.prototype.includes`, used by the exercise-selector
search (operands are lowercased by the caller, as in the source). -/
def jsIncludes (hay need : String) : Bool :=
  decide (need.data <:+: hay.data)

/-- The search-term test of `filteredExercises` (ExerciseSelector): the
lowered term must occur in the name, description, muscle group or
equipment; absent optional fields contribute `false` (JS
optional-chaining yields `undefined`). -/
def matchesSearch (exercise : Exercise) (searchLower : String) : Bool :=
  jsIncludes exercise.name.toLower searchLower ||
  (exercise.description.map (fun d => jsIncludes d.toLower searchLower)).getD false ||
  (exercise.muscle_group.map (fun m => jsIncludes m.toLower searchLower)).getD false ||
  (exercise.equipment.map (fun e => jsIncludes e.toLower searchLower)).getD false

/-- The `filteredExercises` memo of `ExerciseSelector`: successive
early-return filters for search term, exercise type and muscle group; an
empty filter string is falsy in JS and disables its filter. -/
def filteredExercises (exercises : List Exercise)
    (searchTerm exerciseTypeFilter muscleGroupFilter : String) : List Exercise :=
  exercises.filter (fun exercise =>
    (if searchTerm ≠ "" then matchesSearch exercise searchTerm.toLower else true) &&
    (if exerciseTypeFilter ≠ "" then exercise.exercise_type == exerciseTypeFilter else true) &&
    (if muscleGroupFilter ≠ "" then exercise.muscle_group == some muscleGroupFilter else true))

/-- The catalog list `loadExercises` stores into the selector's state:
the fetched exercises with the inactive ones dropped
(`exercisesData.filter(ex => ex.is_active)`). -/
def loadedExercises (exercisesData : List Exercise) : List Exercise :=
  exercisesData.filter (fun ex => ex.is_active)

/-- The `handleAddExercise` handler of `ExerciseSelector`: with no active
workout it only sets the selector-local error banner and returns (no
provider call); otherwise it computes
`(activeWorkout.workout_exercises?.length || 0) + 1` as the order index
and delegates to the provider's `addExerciseToWorkout`. Selector-local
modal state (spinner, close-on-success) is presentation and not
modelled. -/
def handleAddExercise (st : ClientState) (exercise : Exercise)
    (resp : Except ServiceError WorkoutExercise) : OpResult :=
  match st.activeWorkout with
  | none => ⟨st, [], none⟩
  | some w =>
      let count := match w.workout_exercises with
        | some l => l.length
        | none => 0
      Client.addExerciseToWorkout st
        { exercise_id := exercise.id, order_index := count + 1, notes := none } resp

end Selector

namespace Engine

/-- Modelled from the spec: the Session Engine's error taxonomy relevant
to lifecycle rules (§7) — CONFLICT for lifecycle violations, NOT_FOUND
for unknown ids. The engine's Python implementation is not among the
shipped sources; this namespace models §4.1 of the spec. -/
inductive EngineError where
  | conflict
  | notFound
  deriving Repr, DecidableEq

/-- Modelled from the spec: a stored ExerciseSet row (§3). -/
structure SetRow where
  id : Nat
  set_number : Nat
  reps : Option Nat
  weight : Option Nat
  duration : Option Nat
  rest_duration : Option Nat
  notes : Option String
  completed : Bool
  deriving Repr, DecidableEq

/-- Modelled from the spec: a stored WorkoutExercise row with its sets
(§3); the sets are children and cascade with the row. -/
structure WorkoutExerciseRow where
  id : Nat
  workout_id : Nat
  exercise_id : Nat
  order_index : Nat
  notes : Option String
  sets : List SetRow
  deriving Repr, DecidableEq

/-- Modelled from the spec: a stored Workout row (§3);
`completed_at = none` means active. -/
structure WorkoutRow where
  id : Nat
  user_id : Nat
  name : Option String
  started_at : Nat
  completed_at : Option Nat
  notes : Option String
  template_id : Option Nat
  exercises : List WorkoutExerciseRow
  deriving Repr, DecidableEq

/-- Modelled from the spec: a TemplateExercise row with its advisory
suggested values (§3). -/
structure TemplateExerciseRow where
  exercise_id : Nat
  order_index : Nat
  suggested_sets : Option Nat
  suggested_reps : Option Nat
  suggested_weight : Option Nat
  suggested_duration : Option Nat
  deriving Repr, DecidableEq

/-- Modelled from the spec: a WorkoutTemplate row (§3). -/
structure TemplateRow where
  id : Nat
  name : String
  template_exercises : List TemplateExerciseRow
  deriving Repr, DecidableEq

/-- Modelled from the spec: a catalog entry as the engine consults it
when adding an exercise (active flag only). -/
structure CatalogRow where
  id : Nat
  is_active : Bool
  deriving Repr, DecidableEq

/-- Modelled from the spec: the engine's stored state — the workout
aggregates, the read-only catalog, and an id supply. -/
structure EngineState where
  workouts : List WorkoutRow
  catalog : List CatalogRow
  nextId : Nat
  deriving Repr, DecidableEq

/-- Modelled from the spec: the read-then-write check StartWorkout makes —
does the user already have a workout with `completed_at = null`? -/
def hasActiveWorkout (st : EngineState) (userId : Nat) : Bool :=
  st.workouts.any (fun w => w.user_id == userId && w.completed_at.isNone)

/-- Modelled from the spec: copying a template's entries into fresh
WorkoutExercise rows — `order_index` preserved, zero sets, suggested
values not auto-populated into sets (§4.1 StartWorkout). -/
def instantiateTemplateAux (workoutId : Nat) :
    Nat → List TemplateExerciseRow → List WorkoutExerciseRow
  | _, [] => []
  | nextId, te :: rest =>
      { id := nextId, workout_id := workoutId, exercise_id := te.exercise_id,
        order_index := te.order_index, notes := none, sets := [] } ::
      instantiateTemplateAux workoutId (nextId + 1) rest

/-- Modelled from the spec: StartWorkout(user, name?, templateId?) — fails
with CONFLICT when the user already has an active workout; otherwise
creates exactly one Workout row seeded from the template when one is
given (§4.1). -/
def startWorkout (st : EngineState) (userId : Nat) (name : Option String)
    (template : Option TemplateRow) (now : Nat) :
    Except EngineError (WorkoutRow × EngineState) :=
  if hasActiveWorkout st userId then
    Except.error EngineError.conflict
  else
    let wid := st.nextId
    let exs := match template with
      | some t => instantiateTemplateAux wid (wid + 1) t.template_exercises
      | none => []
    let w : WorkoutRow :=
      { id := wid, user_id := userId, name := name, started_at := now,
        completed_at := none, notes := none,
        template_id := template.map (fun t => t.id), exercises := exs }
    Except.ok (w, { st with workouts := w :: st.workouts,
                            nextId := wid + 1 + exs.length })

/-- Modelled from the spec: look a workout up by id. -/
def findWorkout (st : EngineState) (workoutId : Nat) : Option WorkoutRow :=
  st.workouts.find? (fun w => w.id == workoutId)

/-- Modelled from the spec: replace the workout with the given id by the
transformed row, leaving every other row untouched. -/
def updateWorkoutRow (st : EngineState) (workoutId : Nat)
    (f : WorkoutRow → WorkoutRow) : EngineState :=
  { st with workouts := st.workouts.map (fun x => if x.id == workoutId then f x else x) }

/-- Modelled from the spec: CompleteWorkout(workout) — sets
`completed_at = now`; fails with CONFLICT if already completed, NOT_FOUND
if unknown (§4.1). -/
def completeWorkout (st : EngineState) (workoutId : Nat) (now : Nat) :
    Except EngineError (WorkoutRow × EngineState) :=
  match findWorkout st workoutId with
  | none => Except.error EngineError.notFound
  | some w =>
      if w.completed_at.isSome then
        Except.error EngineError.conflict
      else
        Except.ok ({ w with completed_at := some now },
          updateWorkoutRow st workoutId (fun x => { x with completed_at := some now }))

/-- Modelled from the spec: CancelWorkout(workout) — hard-deletes the
workout and all descendants (§4.1). -/
def cancelWorkout (st : EngineState) (workoutId : Nat) :
    Except EngineError EngineState :=
  match findWorkout st workoutId with
  | none => Except.error EngineError.notFound
  | some _ =>
      Except.ok { st with workouts := st.workouts.filter (fun w => w.id ≠ workoutId) }

/-- Modelled from the spec: partial field update of a set — only supplied
fields change (§4.1 UpdateSet). -/
def applySetUpdate (s : SetRow) (u : ExerciseSetUpdate) : SetRow :=
  { s with reps := u.reps.or s.reps, weight := u.weight.or s.weight,
           duration := u.duration.or s.duration,
           rest_duration := u.rest_duration.or s.rest_duration,
           notes := u.notes.or s.notes,
           completed := u.completed.getD s.completed }

/-- Modelled from the spec: append the new set to the targeted exercise
(§4.1 AddSet). -/
def addSetToRows (weId : Nat) (data : SetRow)
    (rows : List WorkoutExerciseRow) : List WorkoutExerciseRow :=
  rows.map (fun e => if e.id == weId then { e with sets := e.sets ++ [data] } else e)

/-- Modelled from the spec: apply a partial set update inside the
targeted exercise (§4.1 UpdateSet). -/
def updateSetInRows (weId setId : Nat) (data : ExerciseSetUpdate)
    (rows : List WorkoutExerciseRow) : List WorkoutExerciseRow :=
  rows.map (fun e =>
    if e.id == weId
    then { e with sets := e.sets.map (fun s => if s.id == setId then applySetUpdate s data else s) }
    else e)

/-- Modelled from the spec: delete a set from the targeted exercise
(§4.1 DeleteSet). -/
def deleteSetInRows (weId setId : Nat)
    (rows : List WorkoutExerciseRow) : List WorkoutExerciseRow :=
  rows.map (fun e =>
    if e.id == weId then { e with sets := e.sets.filter (fun s => s.id ≠ setId) } else e)

/-- Modelled from the spec: the mutation operations on a workout's
sub-entities (§4.1): AddExercise, RemoveExercise, AddSet, UpdateSet,
DeleteSet, UpdateNotes. -/
inductive MutationOp where
  | addExercise (exerciseId : Nat) (orderIndex : Nat)
  | removeExercise (workoutExerciseId : Nat)
  | addSetOp (workoutExerciseId : Nat) (data : SetRow)
  | updateSetOp (workoutExerciseId : Nat) (setId : Nat) (data : ExerciseSetUpdate)
  | deleteSetOp (workoutExerciseId : Nat) (setId : Nat)
  | updateNotes (notes : String)
  deriving Repr, DecidableEq

/-- Modelled from the spec: applying a mutation operation to a workout —
every mutation fails with CONFLICT when the workout is already completed
(terminal state, §4.1), with NOT_FOUND when the workout or the referenced
catalog exercise is unknown; otherwise it edits the aggregate in place. -/
def applyMutation (st : EngineState) (workoutId : Nat) (m : MutationOp) :
    Except EngineError EngineState :=
  match findWorkout st workoutId with
  | none => Except.error EngineError.notFound
  | some w =>
      if w.completed_at.isSome then
        Except.error EngineError.conflict
      else
        match m with
        | MutationOp.addExercise exerciseId orderIndex =>
            if st.catalog.any (fun c => c.id == exerciseId && c.is_active) then
              let row : WorkoutExerciseRow :=
                { id := st.nextId, workout_id := workoutId, exercise_id := exerciseId,
                  order_index := orderIndex, notes := none, sets := [] }
              let st' := updateWorkoutRow st workoutId
                (fun x => { x with exercises := x.exercises ++ [row] })
              Except.ok { st' with nextId := st.nextId + 1 }
            else Except.error EngineError.notFound
        | MutationOp.removeExercise weId =>
            Except.ok (updateWorkoutRow st workoutId
              (fun x => { x with exercises := x.exercises.filter (fun e => e.id ≠ weId) }))
        | MutationOp.addSetOp weId data =>
            if w.exercises.any (fun e => e.id == weId) then
              Except.ok (updateWorkoutRow st workoutId
                (fun x => { x with exercises := addSetToRows weId data x.exercises }))
            else Except.error EngineError.notFound
        | MutationOp.updateSetOp weId setId data =>
            Except.ok (updateWorkoutRow st workoutId
              (fun x => { x with exercises := updateSetInRows weId setId data x.exercises }))
        | MutationOp.deleteSetOp weId setId =>
            Except.ok (updateWorkoutRow st workoutId
              (fun x => { x with exercises := deleteSetInRows weId setId x.exercises }))
        | MutationOp.updateNotes notes =>
            Except.ok (updateWorkoutRow st workoutId
              (fun x => { x with notes := some notes }))

/-- Modelled from the spec: the lifecycle operations of the Workout state
machine (§4.1): start, complete, cancel. -/
inductive EngineOp where
  | startOp (userId : Nat) (name : Option String) (template : Option TemplateRow) (now : Nat)
  | completeOp (workoutId : Nat) (now : Nat)
  | cancelOp (workoutId : Nat)
  deriving Repr, DecidableEq

/-- Modelled from the spec: one request against the engine — a failed
operation returns its typed error to the caller and leaves the store
unchanged (§7: violations are returned, never silently applied). -/
def step (st : EngineState) : EngineOp → EngineState
  | EngineOp.startOp userId name template now =>
      match startWorkout st userId name template now with
      | Except.ok (_, st') => st'
      | Except.error _ => st
  | EngineOp.completeOp workoutId now =>
      match completeWorkout st workoutId now with
      | Except.ok (_, st') => st'
      | Except.error _ => st
  | EngineOp.cancelOp workoutId =>
      match cancelWorkout st workoutId with
      | Except.ok st' => st'
      | Except.error _ => st

/-- Modelled from the spec: running a sequence of lifecycle requests. -/
def run (st : EngineState) (ops : List EngineOp) : EngineState :=
  ops.foldl step st

/-- Modelled from the spec: how many of a user's workouts are active
(`completed_at = null`). -/
def countActive (st : EngineState) (userId : Nat) : Nat :=
  st.workouts.countP (fun w => w.user_id == userId && w.completed_at.isNone)

/-- Modelled from the spec: the single-active-session invariant — at most
one Workout per user has `completed_at = null` (§3). -/
def singleActive (st : EngineState) : Prop :=
  ∀ userId, countActive st userId ≤ 1

end Engine

/-- Concrete catalog exercise used by the witnesses. -/
def sampleExercise : Exercise :=
  { id := 5, name := "Bench Press", description := none,
    exercise_type := "WEIGHT_BASED", muscle_group := some "Chest",
    equipment := some "Barbell", instructions := none, is_active := true,
    created_at := "2024-01-01", updated_at := "2024-01-01" }

/-- Concrete inactive catalog exercise used by the witnesses. -/
def inactiveExercise : Exercise :=
  { sampleExercise with id := 6, name := "Old Machine", is_active := false }

/-- Concrete set used by the witnesses. -/
def sampleSet : ExerciseSet :=
  { id := 31, workout_exercise_id := 21, set_number := 1, reps := some 5,
    weight := some 80, duration := none, rest_duration := none, notes := none,
    completed := false, created_at := "2024-01-01", updated_at := "2024-01-01" }

/-- Concrete workout exercise used by the witnesses. -/
def sampleWorkoutExercise : WorkoutExercise :=
  { id := 21, workout_id := 1, exercise_id := 5, exercise := sampleExercise,
    order_index := 1, notes := none, sets := some [sampleSet] }

/-- Concrete active workout used by the witnesses. -/
def sampleWorkout : Workout :=
  { id := 1, user_id := 1, name := some "Push Day", started_at := "2024-01-01",
    completed_at := none, notes := none, template_id := none,
    workout_exercises := some [sampleWorkoutExercise] }

/-- Concrete provider state with an active workout, used by the
witnesses. -/
def sampleClientState : ClientState :=
  { activeWorkout := some sampleWorkout, loading := false, error := none,
    workoutTimer := 0, timerInterval := none }

/-- Concrete provider state with no active workout, used by the
witnesses. -/
def emptyClientState : ClientState :=
  { activeWorkout := none, loading := false, error := none,
    workoutTimer := 0, timerInterval := none }

/-- Concrete service failure used by the witnesses. -/
def sampleError : ServiceError :=
  { detail := some (Sum.inr "boom"), message := none }

/-- C8: for every workout-exercise id, set id and service outcome,
`completeSet` equals `updateSet` applied to the single-field payload
`completed = true`: same service call, same cache transformation, same
error propagation. -/
theorem completeSet_is_updateSet_completed_true (st : ClientState)
    (workoutExerciseId setId : Nat) (resp : Except ServiceError ExerciseSet) :
    Client.completeSet st workoutExerciseId setId resp =
      Client.updateSet st workoutExerciseId setId
        { reps := none, weight := none, duration := none, rest_duration := none,
          notes := none, completed := some true } resp := rfl

/-- C9: with no cached active workout, completeWorkout, cancelWorkout,
updateWorkoutNotes, removeExerciseFromWorkout, updateExerciseNotes,
addSet, updateSet and deleteSet return with no service call, no state
change and nothing thrown, while addExerciseToWorkout throws
`No active workout found` without a call or a state change. -/
theorem no_active_workout_operations_noop (st : ClientState)
    (h : st.activeWorkout = none) (notes : String) (weId setId : Nat)
    (ed : WorkoutExerciseCreate) (sc : ExerciseSetCreate) (su : ExerciseSetUpdate)
    (ru : Except ServiceError Unit) (rw : Except ServiceError Workout)
    (rwe : Except ServiceError WorkoutExercise) (rs : Except ServiceError ExerciseSet) :
    Client.completeWorkout st ru = ⟨st, [], none⟩ ∧
    Client.cancelWorkout st ru = ⟨st, [], none⟩ ∧
    Client.updateWorkoutNotes st notes rw = ⟨st, [], none⟩ ∧
    Client.removeExerciseFromWorkout st weId ru = ⟨st, [], none⟩ ∧
    Client.updateExerciseNotes st weId notes rwe = ⟨st, [], none⟩ ∧
    Client.addSet st weId sc rs = ⟨st, [], none⟩ ∧
    Client.updateSet st weId setId su rs = ⟨st, [], none⟩ ∧
    Client.deleteSet st weId setId ru = ⟨st, [], none⟩ ∧
    Client.addExerciseToWorkout st ed rwe = ⟨st, [], some "No active workout found"⟩ := by
  refine ⟨?_, ?_, ?_, ?_, ?_, ?_, ?_, ?_, ?_⟩ <;>
    simp [Client.completeWorkout, Client.cancelWorkout, Client.updateWorkoutNotes,
      Client.removeExerciseFromWorkout, Client.updateExerciseNotes, Client.addSet,
      Client.updateSet, Client.deleteSet, Client.addExerciseToWorkout, h]

/-- Witness for C9: the no-op behaviour evaluated on a concrete empty
provider state. -/
theorem no_active_workout_operations_noop_witness :
    Client.completeWorkout emptyClientState (Except.ok ()) = ⟨emptyClientState, [], none⟩ ∧
    Client.addExerciseToWorkout emptyClientState ⟨5, 1, none⟩ (Except.error sampleError) =
      ⟨emptyClientState, [], some "No active workout found"⟩ := by
  have h := no_active_workout_operations_noop emptyClientState rfl "n" 21 31
    ⟨5, 1, none⟩ ⟨1, none, none, none, none, none, none⟩
    ⟨none, none, none, none, none, none⟩ (Except.ok ())
    (Except.error sampleError) (Except.error sampleError) (Except.error sampleError)
  exact ⟨h.1, h.2.2.2.2.2.2.2.2⟩

/-- C6: whenever an exercise is added through the selector with an active
workout cached, the request carries `order_index` equal to the number of
exercises currently in the cached workout plus one, whatever the state of
the cached exercise list. -/
theorem handleAddExercise_order_index_is_count_plus_one (st : ClientState)
    (w : Workout) (exercise : Exercise) (resp : Except ServiceError WorkoutExercise)
    (h : st.activeWorkout = some w) :
    (Selector.handleAddExercise st exercise resp).calls =
      [ServiceCall.addExerciseToWorkoutCall w.id
        { exercise_id := exercise.id,
          order_index := (w.workout_exercises.getD []).length + 1, notes := none }] := by
  cases hwe : w.workout_exercises <;> cases resp <;>
    simp [Selector.handleAddExercise, Client.addExerciseToWorkout, h, hwe]

/-- Witness for C6: the supplied order index evaluated on a concrete
state whose cached workout holds one exercise. -/
theorem handleAddExercise_order_index_witness :
    (Selector.handleAddExercise sampleClientState sampleExercise
        (Except.error sampleError)).calls =
      [ServiceCall.addExerciseToWorkoutCall 1
        { exercise_id := 5, order_index := 2, notes := none }] := by
  have h := handleAddExercise_order_index_is_count_plus_one sampleClientState
    sampleWorkout sampleExercise (Except.error sampleError) rfl
  simpa [sampleWorkout, sampleWorkoutExercise] using h

/-- C10: every exercise the selector can offer — an element of
`filteredExercises` applied to the loaded catalog — has
`is_active = true`; inactive exercises are dropped before display. -/
theorem selector_offers_only_active_exercises (data : List Exercise)
    (searchTerm typeFilter groupFilter : String) (ex : Exercise)
    (h : ex ∈ Selector.filteredExercises (Selector.loadedExercises data)
          searchTerm typeFilter groupFilter) :
    ex.is_active = true := by
  have h1 := (List.mem_filter.mp h).1
  have h2 := (List.mem_filter.mp h1).2
  simpa using h2

/-- Witness for C10: the filter evaluated on a concrete catalog holding
one active and one inactive exercise. -/
theorem selector_offers_only_active_exercises_witness :
    sampleExercise.is_active = true := by
  refine selector_offers_only_active_exercises [sampleExercise, inactiveExercise]
    "" "" "" sampleExercise ?_
  simp [Selector.filteredExercises, Selector.loadedExercises,
    sampleExercise, inactiveExercise]

/-- C5: when the service call of any mutating cache operation (addSet,
updateSet, deleteSet, addExerciseToWorkout, removeExerciseFromWorkout,
updateExerciseNotes) fails, the cached activeWorkout graph is exactly
what it was before the call and a user-visible error message is set. -/
theorem mutation_error_preserves_graph_and_sets_error (st : ClientState)
    (w : Workout) (err : ServiceError) (weId setId : Nat) (notes : String)
    (ed : WorkoutExerciseCreate) (sc : ExerciseSetCreate) (su : ExerciseSetUpdate)
    (h : st.activeWorkout = some w) :
    ((Client.addSet st weId sc (Except.error err)).state.activeWorkout = st.activeWorkout ∧
      (Client.addSet st weId sc (Except.error err)).state.error.isSome = true) ∧
    ((Client.updateSet st weId setId su (Except.error err)).state.activeWorkout = st.activeWorkout ∧
      (Client.updateSet st weId setId su (Except.error err)).state.error.isSome = true) ∧
    ((Client.deleteSet st weId setId (Except.error err)).state.activeWorkout = st.activeWorkout ∧
      (Client.deleteSet st weId setId (Except.error err)).state.error.isSome = true) ∧
    ((Client.addExerciseToWorkout st ed (Except.error err)).state.activeWorkout = st.activeWorkout ∧
      (Client.addExerciseToWorkout st ed (Except.error err)).state.error.isSome = true) ∧
    ((Client.removeExerciseFromWorkout st weId (Except.error err)).state.activeWorkout = st.activeWorkout ∧
      (Client.removeExerciseFromWorkout st weId (Except.error err)).state.error.isSome = true) ∧
    ((Client.updateExerciseNotes st weId notes (Except.error err)).state.activeWorkout = st.activeWorkout ∧
      (Client.updateExerciseNotes st weId notes (Except.error err)).state.error.isSome = true) := by
  refine ⟨⟨?_, ?_⟩, ⟨?_, ?_⟩, ⟨?_, ?_⟩, ⟨?_, ?_⟩, ⟨?_, ?_⟩, ⟨?_, ?_⟩⟩ <;>
    simp [Client.addSet, Client.updateSet, Client.deleteSet,
      Client.addExerciseToWorkout, Client.removeExerciseFromWorkout,
      Client.updateExerciseNotes, h]

/-- Witness for C5: error preservation evaluated on a concrete state and
a concrete failing call. -/
theorem mutation_error_preserves_graph_witness :
    (Client.deleteSet sampleClientState 21 31 (Except.error sampleError)).state.activeWorkout =
      sampleClientState.activeWorkout ∧
    (Client.deleteSet sampleClientState 21 31
      (Except.error sampleError)).state.error.isSome = true := by
  have h := mutation_error_preserves_graph_and_sets_error sampleClientState
    sampleWorkout sampleError 21 31 "n" ⟨5, 1, none⟩
    ⟨1, none, none, none, none, none, none⟩ ⟨none, none, none, none, none, none⟩ rfl
  exact h.2.2.1

/-- C4: a successful `updateSet` on exercise `weId` and set `setId`
returning server set `s` changes the cache to the same workout with the
same exercise list except that inside the exercise with id `weId` the set
with id `setId` is replaced by `s`; every other workout field, every
other exercise and every other set is untouched, and the only request
issued is the single set-update call (no refetch of the workout). -/
theorem updateSet_targeted_merge (st : ClientState) (w : Workout)
    (l : List WorkoutExercise) (weId setId : Nat) (data : ExerciseSetUpdate)
    (s : ExerciseSet)
    (hw : st.activeWorkout = some w) (hl : w.workout_exercises = some l) :
    ∃ l',
      (Client.updateSet st weId setId data (Except.ok s)).state.activeWorkout =
        some { w with workout_exercises := some l' } ∧
      (Client.updateSet st weId setId data (Except.ok s)).calls =
        [ServiceCall.updateExerciseSet w.id weId setId data] ∧
      (Client.updateSet st weId setId data (Except.ok s)).state.error = none ∧
      l'.length = l.length ∧
      (∀ i (hi : i < l.length) (hi' : i < l'.length),
        (l.get ⟨i, hi⟩).id ≠ weId → l'.get ⟨i, hi'⟩ = l.get ⟨i, hi⟩) ∧
      (∀ i (hi : i < l.length) (hi' : i < l'.length) (sl : List ExerciseSet),
        (l.get ⟨i, hi⟩).id = weId → (l.get ⟨i, hi⟩).sets = some sl →
        ∃ sl',
          l'.get ⟨i, hi'⟩ = { l.get ⟨i, hi⟩ with sets := some sl' } ∧
          sl'.length = sl.length ∧
          (∀ j (hj : j < sl.length) (hj' : j < sl'.length),
            ((sl.get ⟨j, hj⟩).id ≠ setId → sl'.get ⟨j, hj'⟩ = sl.get ⟨j, hj⟩) ∧
            ((sl.get ⟨j, hj⟩).id = setId → sl'.get ⟨j, hj'⟩ = s))) := by
  refine ⟨l.map (fun we =>
    if we.id = weId
    then { we with sets := some ((we.sets.getD []).map
        (fun x => if x.id = setId then s else x)) }
    else we), ?_, ?_, ?_, ?_, ?_, ?_⟩
  · simp [Client.updateSet, hw, hl]
  · simp [Client.updateSet, hw, hl]
  · simp [Client.updateSet, hw, hl]
  · simp
  · intro i hi hi' hne
    simp only [List.get_eq_getElem, List.getElem_map]
    simp only [List.get_eq_getElem] at hne
    exact if_neg hne
  · intro i hi hi' sl hid hsets
    simp only [List.get_eq_getElem] at hid hsets
    refine ⟨sl.map (fun x => if x.id = setId then s else x), ?_, ?_, ?_⟩
    · simp only [List.get_eq_getElem, List.getElem_map]
      rw [if_pos hid, hsets]
      simp
    · simp
    · intro j hj hj'
      constructor
      · intro hne
        simp only [List.get_eq_getElem] at hne ⊢
        simp only [List.getElem_map]
        exact if_neg hne
      · intro heq
        simp only [List.get_eq_getElem] at heq ⊢
        simp only [List.getElem_map]
        exact if_pos heq

/-- Witness for C4: the targeted merge evaluated on a concrete cache with
one exercise holding one set. -/
theorem updateSet_targeted_merge_witness :
    ∃ l',
      (Client.updateSet sampleClientState 21 31
          { reps := none, weight := none, duration := none, rest_duration := none,
            notes := none, completed := some true }
          (Except.ok { sampleSet with completed := true })).state.activeWorkout =
        some { sampleWorkout with workout_exercises := some l' } ∧
      (Client.updateSet sampleClientState 21 31
          { reps := none, weight := none, duration := none, rest_duration := none,
            notes := none, completed := some true }
          (Except.ok { sampleSet with completed := true })).calls =
        [ServiceCall.updateExerciseSet sampleWorkout.id 21 31
          { reps := none, weight := none, duration := none, rest_duration := none,
            notes := none, completed := some true }] ∧
      (Client.updateSet sampleClientState 21 31
          { reps := none, weight := none, duration := none, rest_duration := none,
            notes := none, completed := some true }
          (Except.ok { sampleSet with completed := true })).state.error = none ∧
      l'.length = [sampleWorkoutExercise].length ∧
      (∀ i (hi : i < [sampleWorkoutExercise].length) (hi' : i < l'.length),
        ([sampleWorkoutExercise].get ⟨i, hi⟩).id ≠ 21 →
          l'.get ⟨i, hi'⟩ = [sampleWorkoutExercise].get ⟨i, hi⟩) ∧
      (∀ i (hi : i < [sampleWorkoutExercise].length) (hi' : i < l'.length)
          (sl : List ExerciseSet),
        ([sampleWorkoutExercise].get ⟨i, hi⟩).id = 21 →
        ([sampleWorkoutExercise].get ⟨i, hi⟩).sets = some sl →
        ∃ sl',
          l'.get ⟨i, hi'⟩ = { [sampleWorkoutExercise].get ⟨i, hi⟩ with sets := some sl' } ∧
          sl'.length = sl.length ∧
          (∀ j (hj : j < sl.length) (hj' : j < sl'.length),
            ((sl.get ⟨j, hj⟩).id ≠ 31 → sl'.get ⟨j, hj'⟩ = sl.get ⟨j, hj⟩) ∧
            ((sl.get ⟨j, hj⟩).id = 31 →
              sl'.get ⟨j, hj'⟩ = { sampleSet with completed := true }))) :=
  updateSet_targeted_merge sampleClientState sampleWorkout [sampleWorkoutExercise]
    21 31
    { reps := none, weight := none, duration := none, rest_duration := none,
      notes := none, completed := some true }
    { sampleSet with completed := true } rfl rfl

namespace Engine

/-- A workout list with no active entry for a user has active-count
zero. -/
lemma countP_eq_zero_of_not_active (l : List WorkoutRow) (userId : Nat)
    (h : l.any (fun w => w.user_id == userId && w.completed_at.isNone) = false) :
    l.countP (fun w => w.user_id == userId && w.completed_at.isNone) = 0 := by
  rw [List.countP_eq_zero]
  intro a ha hp
  have hT : l.any (fun w => w.user_id == userId && w.completed_at.isNone) = true :=
    List.any_eq_true.mpr ⟨a, ha, hp⟩
  rw [h] at hT
  exact Bool.false_ne_true hT

/-- Every single engine lifecycle request preserves the
single-active-session invariant. -/
lemma singleActive_step (st : EngineState) (op : EngineOp)
    (h : singleActive st) : singleActive (step st op) := by
  cases op with
  | startOp userId name template now =>
      simp only [step]
      split
      · next w' st' heq =>
          unfold startWorkout at heq
          by_cases hA : hasActiveWorkout st userId
          · rw [if_pos hA] at heq
            exact absurd heq (by simp)
          · rw [if_neg hA] at heq
            simp only [Except.ok.injEq, Prod.mk.injEq] at heq
            obtain ⟨-, hst⟩ := heq
            subst hst
            intro uid
            unfold countActive
            simp only [List.countP_cons]
            by_cases huid : uid = userId
            · subst huid
              have hz := countP_eq_zero_of_not_active st.workouts uid
                (by simpa [hasActiveWorkout] using hA)
              simp [hz]
            · have hne : (userId == uid) = false := by
                simp only [beq_eq_false_iff_ne, ne_eq]
                exact fun hh => huid hh.symm
              simpa [hne, countActive] using h uid
      · exact h
  | completeOp workoutId now =>
      simp only [step]
      split
      · next w' st' heq =>
          unfold completeWorkout at heq
          split at heq
          · exact absurd heq (by simp)
          · split at heq
            · exact absurd heq (by simp)
            · simp only [Except.ok.injEq, Prod.mk.injEq] at heq
              obtain ⟨-, hst⟩ := heq
              subst hst
              intro uid
              unfold countActive updateWorkoutRow
              simp only [List.countP_map]
              refine le_trans (List.countP_mono_left ?_) (h uid)
              intro x hx hpx
              by_cases hxid : (x.id == workoutId) = true
              · simp [Function.comp, hxid] at hpx
              · simpa [Function.comp, hxid] using hpx
      · exact h
  | cancelOp workoutId =>
      simp only [step]
      split
      · next st' heq =>
          unfold cancelWorkout at heq
          split at heq
          · exact absurd heq (by simp)
          · simp only [Except.ok.injEq] at heq
            subst heq
            intro uid
            unfold countActive
            rw [List.countP_filter]
            refine le_trans (List.countP_mono_left ?_) (h uid)
            intro x hx hpx
            exact (Bool.and_eq_true .. |>.mp hpx).1
      · exact h

/-- On success, `completeWorkout` returns the workout stamped with the
completion time, and the stored row matches it. -/
lemma completeWorkout_ok_spec (st : EngineState) (workoutId now : Nat)
    (w' : WorkoutRow) (st' : EngineState)
    (h : completeWorkout st workoutId now = Except.ok (w', st')) :
    findWorkout st' workoutId = some w' ∧ w'.completed_at = some now := by
  unfold completeWorkout at h
  split at h
  · exact absurd h (by simp)
  · next w0 hfind =>
      split at h
      · exact absurd h (by simp)
      · simp only [Except.ok.injEq, Prod.mk.injEq] at h
        obtain ⟨hw, hst⟩ := h
        subst hw
        subst hst
        refine ⟨?_, rfl⟩
        unfold findWorkout at hfind
        unfold findWorkout updateWorkoutRow
        rw [List.find?_map]
        have hpg : ((fun w => w.id == workoutId) ∘
            (fun x : WorkoutRow =>
              if x.id == workoutId then { x with completed_at := some now } else x)) =
            (fun w : WorkoutRow => w.id == workoutId) := by
          funext x
          by_cases hx : (x.id == workoutId) = true
          · simp [Function.comp, hx]
          · simp [Function.comp, hx]
        rw [hpg, hfind]
        have hp0 := List.find?_some hfind
        have hid : w0.id = workoutId := by simpa using hp0
        simp [hid]

end Engine

/-- C1: every state reachable by any sequence of StartWorkout,
CompleteWorkout and CancelWorkout requests from a state satisfying the
single-active-session rule still satisfies it — at most one workout per
user has `completed_at = null` — and the client cache mirrors it by
construction, holding at most one workout in its single nullable
`activeWorkout` field. -/
theorem single_active_session_rule (ops : List Engine.EngineOp)
    (st : Engine.EngineState) (h : Engine.singleActive st) :
    Engine.singleActive (Engine.run st ops) ∧
    ∀ c : ClientState, c.activeWorkout.toList.length ≤ 1 := by
  constructor
  · induction ops generalizing st with
    | nil => exact h
    | cons op rest ih => exact ih (Engine.step st op) (Engine.singleActive_step st op h)
  · intro c
    cases c.activeWorkout <;> simp

/-- Concrete empty engine store used by the witnesses. -/
def emptyEngineState : Engine.EngineState := ⟨[], [], 1⟩

/-- Witness for C1: the invariant evaluated after a concrete
start/complete/start sequence from the empty store. -/
theorem single_active_session_rule_witness :
    Engine.singleActive (Engine.run emptyEngineState
      [Engine.EngineOp.startOp 1 none none 0,
       Engine.EngineOp.completeOp 1 5,
       Engine.EngineOp.startOp 1 none none 6]) :=
  (single_active_session_rule _ emptyEngineState
    (by intro u; simp [Engine.countActive, emptyEngineState])).1

/-- C2: completing an already-completed workout always fails with
CONFLICT and leaves the store — the stored `completed_at` included —
unchanged; and after a successful CompleteWorkout every mutation
operation on that workout is refused with CONFLICT. -/
theorem completeWorkout_conflict_terminal :
    (∀ (st : Engine.EngineState) (workoutId : Nat) (w : Engine.WorkoutRow)
        (t now : Nat),
      Engine.findWorkout st workoutId = some w → w.completed_at = some t →
      Engine.completeWorkout st workoutId now =
        Except.error Engine.EngineError.conflict ∧
      Engine.step st (Engine.EngineOp.completeOp workoutId now) = st) ∧
    (∀ (st : Engine.EngineState) (workoutId now : Nat) (w' : Engine.WorkoutRow)
        (st' : Engine.EngineState) (m : Engine.MutationOp),
      Engine.completeWorkout st workoutId now = Except.ok (w', st') →
      Engine.applyMutation st' workoutId m =
        Except.error Engine.EngineError.conflict) := by
  constructor
  · intro st workoutId w t now hfind hc
    have h1 : Engine.completeWorkout st workoutId now =
        Except.error Engine.EngineError.conflict := by
      unfold Engine.completeWorkout
      rw [hfind]
      simp [hc]
    exact ⟨h1, by simp [Engine.step, h1]⟩
  · intro st workoutId now w' st' m h
    obtain ⟨hf, hc⟩ := Engine.completeWorkout_ok_spec st workoutId now w' st' h
    unfold Engine.applyMutation
    rw [hf]
    simp [hc]

/-- Concrete store holding one already-completed workout, used by the
witnesses. -/
def completedRow : Engine.WorkoutRow :=
  { id := 1, user_id := 1, name := none, started_at := 0,
    completed_at := some 10, notes := none, template_id := none, exercises := [] }

/-- Concrete active workout row used by the witnesses. -/
def activeRow : Engine.WorkoutRow :=
  { completedRow with id := 2, completed_at := none }

/-- Concrete store holding the completed workout. -/
def conflictEngineState : Engine.EngineState := ⟨[completedRow], [], 3⟩

/-- Concrete store holding the active workout. -/
def activeEngineState : Engine.EngineState := ⟨[activeRow], [], 3⟩

/-- Concrete store after completing the active workout at time 20. -/
def completedEngineState : Engine.EngineState :=
  ⟨[{ activeRow with completed_at := some 20 }], [], 3⟩

/-- Witness for C2: the CONFLICT and terminality behaviour evaluated on
concrete stores. -/
theorem completeWorkout_conflict_terminal_witness :
    (Engine.completeWorkout conflictEngineState 1 20 =
        Except.error Engine.EngineError.conflict ∧
      Engine.step conflictEngineState (Engine.EngineOp.completeOp 1 20) =
        conflictEngineState) ∧
    Engine.applyMutation completedEngineState 2 (Engine.MutationOp.updateNotes "x") =
      Except.error Engine.EngineError.conflict :=
  ⟨completeWorkout_conflict_terminal.1 conflictEngineState 1 completedRow 10 20 rfl rfl,
   completeWorkout_conflict_terminal.2 activeEngineState 2 20
     { activeRow with completed_at := some 20 } completedEngineState
     (Engine.MutationOp.updateNotes "x") rfl⟩

namespace Engine

/-- Instantiating a template yields as many rows as the template has
entries. -/
lemma instantiateTemplateAux_length (workoutId : Nat) (l : List TemplateExerciseRow) :
    ∀ n, (instantiateTemplateAux workoutId n l).length = l.length := by
  induction l with
  | nil => intro n; rfl
  | cons te rest ih => intro n; simp [instantiateTemplateAux, ih (n + 1)]

/-- Every row produced by template instantiation has zero sets. -/
lemma instantiateTemplateAux_sets (workoutId : Nat) (l : List TemplateExerciseRow) :
    ∀ n we, we ∈ instantiateTemplateAux workoutId n l → we.sets = [] := by
  induction l with
  | nil => intro n we h; simp [instantiateTemplateAux] at h
  | cons te rest ih =>
      intro n we h
      simp only [instantiateTemplateAux, List.mem_cons] at h
      rcases h with h | h
      · rw [h]
      · exact ih (n + 1) we h

/-- Template instantiation copies each entry's `order_index` verbatim at
the same position. -/
lemma instantiateTemplateAux_order (workoutId : Nat) (l : List TemplateExerciseRow) :
    ∀ n i (hi : i < (instantiateTemplateAux workoutId n l).length) (hi' : i < l.length),
      ((instantiateTemplateAux workoutId n l).get ⟨i, hi⟩).order_index =
        (l.get ⟨i, hi'⟩).order_index := by
  induction l with
  | nil => intro n i hi hi'; exact absurd hi' (by simp)
  | cons te rest ih =>
      intro n i hi hi'
      cases i with
      | zero => rfl
      | succ k =>
          have hk : k < (instantiateTemplateAux workoutId (n + 1) rest).length := by
            have := hi
            simpa [instantiateTemplateAux] using this
          have hk' : k < rest.length := by simpa using hi'
          simpa [instantiateTemplateAux] using ih (n + 1) k hk hk'

end Engine

/-- C3: a successful StartWorkout from a template with N entries creates
a workout with exactly N exercise rows, each with zero sets (so no
suggested set/rep/weight/duration value reaches any set) and with
`order_index` copied verbatim from the template entry at the same
position. -/
theorem startWorkout_from_template_shape (st : Engine.EngineState) (userId : Nat)
    (name : Option String) (t : Engine.TemplateRow) (now : Nat)
    (w : Engine.WorkoutRow) (st' : Engine.EngineState)
    (h : Engine.startWorkout st userId name (some t) now = Except.ok (w, st')) :
    w.exercises.length = t.template_exercises.length ∧
    (∀ we ∈ w.exercises, we.sets = []) ∧
    (∀ i (hi : i < w.exercises.length) (hi' : i < t.template_exercises.length),
      (w.exercises.get ⟨i, hi⟩).order_index =
        (t.template_exercises.get ⟨i, hi'⟩).order_index) := by
  unfold Engine.startWorkout at h
  split at h
  · exact absurd h (by simp)
  · simp only [Except.ok.injEq, Prod.mk.injEq] at h
    obtain ⟨hw, -⟩ := h
    subst hw
    refine ⟨?_, ?_, ?_⟩
    · simpa using
        Engine.instantiateTemplateAux_length st.nextId t.template_exercises (st.nextId + 1)
    · intro we hwe
      exact Engine.instantiateTemplateAux_sets st.nextId t.template_exercises
        (st.nextId + 1) we (by simpa using hwe)
    · intro i hi hi'
      simpa using Engine.instantiateTemplateAux_order st.nextId t.template_exercises
        (st.nextId + 1) i (by simpa using hi) hi'

/-- Concrete two-entry template used by the witnesses; both entries carry
suggested values. -/
def sampleTemplateRow : Engine.TemplateRow :=
  ⟨9, "Push Day",
    [⟨11, 1, some 3, some 8, some 60, none⟩, ⟨12, 2, some 3, none, none, some 45⟩]⟩

/-- Concrete workout produced by starting from the sample template on the
empty store. -/
def instantiatedWorkoutRow : Engine.WorkoutRow :=
  { id := 1, user_id := 1, name := none, started_at := 0, completed_at := none,
    notes := none, template_id := some 9,
    exercises := [⟨2, 1, 11, 1, none, []⟩, ⟨3, 1, 12, 2, none, []⟩] }

/-- Concrete store after starting from the sample template. -/
def afterTemplateState : Engine.EngineState := ⟨[instantiatedWorkoutRow], [], 4⟩

/-- Witness for C3: the template copy evaluated on the concrete two-entry
template. -/
theorem startWorkout_from_template_shape_witness :
    instantiatedWorkoutRow.exercises.length =
      sampleTemplateRow.template_exercises.length :=
  (startWorkout_from_template_shape emptyEngineState 1 none sampleTemplateRow 0
    instantiatedWorkoutRow afterTemplateState rfl).1
